import Mathlib

/-!
Verification of the slack workflow-status notifier (`src/main.ts`).

The program fetches the current workflow run, its commit and its jobs,
aggregates the job conclusions into a severity colour, renders durations
and composes a single Slack payload.  Times are modelled as integer
milliseconds since the epoch (`Date.valueOf()`); JavaScript `Math.floor`
on a quotient of integer milliseconds is exact integer floor division
(`Int.fdiv`), and the JavaScript `%` remainder (sign of the dividend)
is `Int.tmod`.  Strings are Lean strings; template literals are
concatenation.
-/

/-- Model of JavaScript `String.prototype.trim`: strip whitespace from both
ends of the string.  (Defined structurally so it computes in the kernel.) -/
def jsTrim (s : String) : String :=
  String.mk (((s.data.dropWhile Char.isWhitespace).reverse.dropWhile Char.isWhitespace).reverse)

/-- Function `format_duration` from `computeDuration` in `src/main.ts`:
`(value, text, hide_on_zero) => (value <= 0 && hide_on_zero ? '' : `${value}${text} `)`. -/
def format_duration (value : Int) (text : String) (hide_on_zero : Bool) : String :=
  if value ≤ 0 ∧ hide_on_zero = true then "" else toString value ++ text ++ " "

/-- Function `computeDuration` from `src/main.ts`, with the two `Date` arguments given
as integer epoch milliseconds (`start.valueOf()`, `end.valueOf()`).  The
JavaScript function computes in (possibly fractional) seconds; multiplying
through by 1000 gives the identical exact computation on integer
milliseconds: `Math.floor (delta / k)` is `Int.fdiv` by `1000 * k`, the
running subtractions are as in the source, and `delta % 60` is `Int.tmod`
by `60000` followed by `Int.fdiv` by `1000`. -/
def computeDuration (start stop : Int) : String :=
  let duration := stop - start
  let days := duration.fdiv 86400000
  let delta1 := duration - days * 86400000
  let hours := (delta1.fdiv 3600000).tmod 24
  let delta2 := delta1 - hours * 3600000
  let minutes := (delta2.fdiv 60000).tmod 60
  let delta3 := delta2 - minutes * 60000
  let seconds := (delta3.tmod 60000).fdiv 1000
  format_duration days "d" true ++ format_duration hours "h" true ++
    format_duration minutes "m" true ++ jsTrim (format_duration seconds "s" false)

/-- Rendering rule stated by the spec for the duration formatter: the
days/hours/minutes components are rendered (value, one-letter suffix, one
space) only when positive, the seconds component is always rendered last
with no trailing whitespace. -/
def renderDHMS (d h m s : Int) : String :=
  (if 0 < d then toString d ++ "d" ++ " " else "") ++
    (if 0 < h then toString h ++ "h" ++ " " else "") ++
      (if 0 < m then toString m ++ "m" ++ " " else "") ++
        (toString s ++ "s")

/-- Modelled from the spec: the duration format as the spec describes it
for a non-negative total of `ms` milliseconds — total whole seconds are
`ms / 1000` (sub-second precision truncated), days are `t / 86400`, hours
`t / 3600 % 24`, minutes `t / 60 % 60`, seconds `t % 60`, rendered by the
positive-only/seconds-always rule. -/
def durationSpecFormat (ms : Int) : String :=
  renderDHMS (ms / 1000 / 86400) (ms / 1000 / 3600 % 24) (ms / 1000 / 60 % 60) (ms / 1000 % 60)

lemma fd_show (v : Int) (t : String) : format_duration v t false = toString v ++ t ++ " " := by
  simp [format_duration]

lemma fd_hide (v : Int) (t : String) :
    format_duration v t true = if 0 < v then toString v ++ t ++ " " else "" := by
  unfold format_duration
  by_cases h : v ≤ 0
  · rw [if_pos ⟨h, rfl⟩, if_neg (by omega)]
  · rw [if_neg (fun hc => h hc.1), if_pos (by omega)]

lemma jsTrim_secs (v : Int) (h0 : 0 ≤ v) (h1 : v < 60) :
    jsTrim (toString v ++ "s" ++ " ") = toString v ++ "s" := by
  interval_cases v <;> decide

/-- Normal form of `computeDuration`: the floor-division components in
Euclidean (`ediv`/`emod`) form, assembled by the rendering rule. -/
lemma computeDuration_renders (a b : Int) :
    computeDuration a b =
      renderDHMS ((b - a) / 86400000) ((b - a) % 86400000 / 3600000)
        ((b - a) % 86400000 % 3600000 / 60000)
        ((b - a) % 86400000 % 3600000 % 60000 / 1000) := by
  have e86 : ∀ x : Int, x.fdiv 86400000 = x / 86400000 :=
    fun x => Int.fdiv_eq_ediv x (by norm_num)
  have e36 : ∀ x : Int, x.fdiv 3600000 = x / 3600000 :=
    fun x => Int.fdiv_eq_ediv x (by norm_num)
  have e60 : ∀ x : Int, x.fdiv 60000 = x / 60000 :=
    fun x => Int.fdiv_eq_ediv x (by norm_num)
  have e1k : ∀ x : Int, x.fdiv 1000 = x / 1000 :=
    fun x => Int.fdiv_eq_ediv x (by norm_num)
  simp only [computeDuration, e86, e36, e60, e1k]
  set dur := b - a with hdur
  have h1 : dur - dur / 86400000 * 86400000 = dur % 86400000 := by omega
  rw [h1]
  have h2 : (dur % 86400000 / 3600000).tmod 24 = dur % 86400000 / 3600000 := by
    rw [Int.tmod_eq_emod (by omega) (by omega)]; omega
  rw [h2]
  have h3 : dur % 86400000 - dur % 86400000 / 3600000 * 3600000 =
      dur % 86400000 % 3600000 := by omega
  rw [h3]
  have h4 : (dur % 86400000 % 3600000 / 60000).tmod 60 =
      dur % 86400000 % 3600000 / 60000 := by
    rw [Int.tmod_eq_emod (by omega) (by omega)]; omega
  rw [h4]
  have h5 : dur % 86400000 % 3600000 - dur % 86400000 % 3600000 / 60000 * 60000 =
      dur % 86400000 % 3600000 % 60000 := by omega
  rw [h5]
  have h6 : (dur % 86400000 % 3600000 % 60000).tmod 60000 =
      dur % 86400000 % 3600000 % 60000 := by
    rw [Int.tmod_eq_emod (by omega) (by omega)]; omega
  rw [h6]
  rw [fd_hide, fd_hide, fd_hide, fd_show]
  rw [jsTrim_secs _ (by omega) (by omega)]
  rfl

/-- A workflow job as consumed by `main` (`jobsResponse.jobs` entries):
name, html link, start/end times (epoch milliseconds), status and
conclusion.  Status and conclusion are free-form strings, exactly as the
JavaScript compares them. -/
structure Job where
  name : String
  html_url : String
  started_at : Int
  completed_at : Int
  status : String
  conclusion : String
deriving DecidableEq

/-- The `ResultColors` enum from `src/main.ts`. -/
inductive ResultColors where
  | Good
  | Warning
  | Danger
deriving DecidableEq

/-- The string tag each `ResultColors` member carries in the source. -/
def ResultColors.tag : ResultColors → String
  | .Good => "good"
  | .Warning => "warning"
  | .Danger => "danger"

/-- Filter `completedJobs` from `main`: jobs with `status === 'completed'` and
`conclusion !== 'skipped'`. -/
def completedJobs (jobs : List Job) : List Job :=
  jobs.filter fun job => job.status == "completed" && job.conclusion != "skipped"

/-- The `resultColor` assignment in `main` (lines 91-106): `Good` when every
completed job's conclusion is in `['success', 'skipped']`, else `Warning`
when some completed job was cancelled, else `Danger`. -/
def resultColor (cjobs : List Job) : ResultColors :=
  if cjobs.all fun job => (["success", "skipped"]).contains job.conclusion then .Good
  else if cjobs.any fun job => job.conclusion == "cancelled" then .Warning
  else .Danger

/-- A Slack attachment field as built in `main`. -/
structure SlackField where
  title : String
  short : Bool
  value : String
deriving DecidableEq

/-- The `statusIcons` lookup object inside `main`'s job-field construction. -/
def statusIcons (conclusion : String) : Option String :=
  if conclusion = "success" then some "✓"
  else if conclusion = "cancelled" then some "⃠"
  else if conclusion = "skipped" then some "✗"
  else none

/-- Lookup `statusIcons[job.conclusion] || '✗'` from `main`. -/
def jobIcon (job : Job) : String :=
  (statusIcons job.conclusion).getD "✗"

/-- One entry of the `completedJobs.map` in `main` (lines 113-132):
`{title: '', short: true, value: `${jobIcon} <${job.html_url}|${job.name}> (${jobProcessingTime})`}`. -/
def jobField (job : Job) : SlackField :=
  { title := ""
    short := true
    value := jobIcon job ++ " <" ++ job.html_url ++ "|" ++ job.name ++ "> (" ++
      computeDuration job.started_at job.completed_at ++ ")" }

/-- The conditional `jobFields` assignments inside the colour if-chain of
`main` (lines 91-106): on the `Good` and `Warning` branches the variable is
set to `[]` when `includeJobs === 'on-failure'`; otherwise it stays
unassigned (`none`). -/
def jobFieldsInit (includeJobs : String) (cjobs : List Job) : Option (List SlackField) :=
  if cjobs.all fun job => (["success", "skipped"]).contains job.conclusion then
    (if includeJobs = "on-failure" then some [] else none)
  else if cjobs.any fun job => job.conclusion == "cancelled" then
    (if includeJobs = "on-failure" then some [] else none)
  else none

/-- The final value of the `jobFields` variable in `main`: the colour-chain
assignments, then `if (includeJobs === 'false') jobFields = []`, then
`jobFields ??= completedJobs.map(...)`. -/
def jobFieldsOf (includeJobs : String) (jobs : List Job) : List SlackField :=
  let cjobs := completedJobs jobs
  let jf0 := jobFieldsInit includeJobs cjobs
  let jf1 := if includeJobs = "false" then some [] else jf0
  jf1.getD (cjobs.map jobField)

lemma allGood_iff (l : List Job) :
    (l.all fun job => (["success", "skipped"]).contains job.conclusion) = true ↔
      ∀ j ∈ l, j.conclusion = "success" ∨ j.conclusion = "skipped" := by
  simp [List.all_eq_true]

lemma anyCancelled_iff (l : List Job) :
    (l.any fun job => job.conclusion == "cancelled") = true ↔
      ∃ j ∈ l, j.conclusion = "cancelled" := by
  simp [List.any_eq_true]

/-- The colour chain and the `jobFields` pre-assignment inspect the same
conditions: the pre-assignment is `some []` exactly for policy
`'on-failure'` on a non-`Danger` colour. -/
lemma jobFieldsInit_eq (includeJobs : String) (cjobs : List Job) :
    jobFieldsInit includeJobs cjobs =
      if includeJobs = "on-failure" ∧ resultColor cjobs ≠ ResultColors.Danger then some []
      else none := by
  unfold jobFieldsInit resultColor
  split_ifs <;> simp_all

lemma resultColor_nil : resultColor [] = ResultColors.Good := by decide

lemma resultColor_danger_nonempty (cjobs : List Job)
    (h : resultColor cjobs = ResultColors.Danger) : cjobs ≠ [] := by
  intro hnil
  rw [hnil, resultColor_nil] at h
  exact ResultColors.noConfusion h

/-- C1: restricted to jobs with status `completed` and conclusion not
`skipped`, the derived severity is `Good` when every conclusion is
`success`/`skipped`, otherwise `Warning` when some conclusion is
`cancelled`, otherwise `Danger`; the empty filtered list yields `Good`,
and the derivation is total — always exactly one of the three colours,
never an error, whatever the conclusion strings are. -/
theorem claim_c1_status_aggregation (jobs : List Job) :
    ((∀ j ∈ completedJobs jobs, j.conclusion = "success" ∨ j.conclusion = "skipped") →
        resultColor (completedJobs jobs) = ResultColors.Good) ∧
      ((¬ ∀ j ∈ completedJobs jobs, j.conclusion = "success" ∨ j.conclusion = "skipped") →
          (∃ j ∈ completedJobs jobs, j.conclusion = "cancelled") →
          resultColor (completedJobs jobs) = ResultColors.Warning) ∧
      ((¬ ∀ j ∈ completedJobs jobs, j.conclusion = "success" ∨ j.conclusion = "skipped") →
          (¬ ∃ j ∈ completedJobs jobs, j.conclusion = "cancelled") →
          resultColor (completedJobs jobs) = ResultColors.Danger) ∧
      (resultColor (completedJobs jobs) = ResultColors.Good ∨
        resultColor (completedJobs jobs) = ResultColors.Warning ∨
        resultColor (completedJobs jobs) = ResultColors.Danger) ∧
      resultColor (completedJobs []) = ResultColors.Good := by
  refine ⟨?_, ?_, ?_, ?_, by decide⟩
  · intro h
    unfold resultColor
    rw [if_pos ((allGood_iff _).mpr h)]
  · intro hna hex
    unfold resultColor
    rw [if_neg (fun hc => hna ((allGood_iff _).mp hc)),
      if_pos ((anyCancelled_iff _).mpr hex)]
  · intro hna hne
    unfold resultColor
    rw [if_neg (fun hc => hna ((allGood_iff _).mp hc)),
      if_neg (fun hc => hne ((anyCancelled_iff _).mp hc))]
  · unfold resultColor
    split_ifs <;> simp

theorem claim_c1_status_aggregation_witness :
    resultColor (completedJobs [⟨"a", "u", 0, 0, "completed", "success"⟩]) =
        ResultColors.Good ∧
      resultColor (completedJobs [⟨"a", "u", 0, 0, "completed", "cancelled"⟩,
          ⟨"b", "u", 0, 0, "completed", "success"⟩]) = ResultColors.Warning ∧
      resultColor (completedJobs [⟨"a", "u", 0, 0, "completed", "weird"⟩]) =
        ResultColors.Danger :=
  ⟨(claim_c1_status_aggregation _).1 (by decide),
    (claim_c1_status_aggregation _).2.1 (by decide) (by decide),
    (claim_c1_status_aggregation _).2.2.1 (by decide) (by decide)⟩

/-- C2: job-inclusion policy.  The source's policy strings are `'never'` =
`'false'`, `'always'` = `'true'` and `'on-failure'`.  With `'false'` the
composed `jobFields` list is empty; with `'on-failure'` it is one entry per
filtered job (and non-empty) exactly when the severity is `Danger`, and
empty for `Good`/`Warning`; with `'true'` it is one entry per filtered job,
hence populated whenever filtered jobs exist. -/
theorem claim_c2_job_inclusion_policy (jobs : List Job) :
    jobFieldsOf "false" jobs = [] ∧
      (resultColor (completedJobs jobs) = ResultColors.Danger →
          jobFieldsOf "on-failure" jobs = (completedJobs jobs).map jobField ∧
            jobFieldsOf "on-failure" jobs ≠ []) ∧
      (resultColor (completedJobs jobs) ≠ ResultColors.Danger →
          jobFieldsOf "on-failure" jobs = []) ∧
      jobFieldsOf "true" jobs = (completedJobs jobs).map jobField ∧
      (completedJobs jobs ≠ [] → jobFieldsOf "true" jobs ≠ []) := by
  refine ⟨?_, ?_, ?_, ?_, ?_⟩
  · simp [jobFieldsOf]
  · intro hD
    have hne := resultColor_danger_nonempty _ hD
    simp only [jobFieldsOf]
    rw [jobFieldsInit_eq]
    simp [hD, hne]
  · intro hnD
    simp only [jobFieldsOf]
    rw [jobFieldsInit_eq]
    simp [hnD]
  · simp only [jobFieldsOf]
    rw [jobFieldsInit_eq]
    simp
  · intro hne
    simp only [jobFieldsOf]
    rw [jobFieldsInit_eq]
    simp [hne]

theorem claim_c2_job_inclusion_policy_witness :
    (jobFieldsOf "on-failure" [⟨"a", "u", 0, 0, "completed", "failure"⟩] =
        (completedJobs [⟨"a", "u", 0, 0, "completed", "failure"⟩]).map jobField ∧
      jobFieldsOf "on-failure" [⟨"a", "u", 0, 0, "completed", "failure"⟩] ≠ []) ∧
      jobFieldsOf "on-failure" [⟨"a", "u", 0, 0, "completed", "success"⟩] = [] ∧
      jobFieldsOf "true" [⟨"a", "u", 0, 0, "completed", "success"⟩] ≠ [] :=
  ⟨(claim_c2_job_inclusion_policy _).2.1 (by decide),
    (claim_c2_job_inclusion_policy _).2.2.1 (by decide),
    (claim_c2_job_inclusion_policy _).2.2.2.2 (by decide)⟩

/-- C8: for every policy string and job list, the composed `jobFields` is
either empty or exactly the per-job field of each completed, non-skipped
job — one entry per such job, in fetch order (same length, i-th entry built
from the i-th filtered job). -/
theorem claim_c8_jobfields_invariant (includeJobs : String) (jobs : List Job) :
    jobFieldsOf includeJobs jobs = [] ∨
      (jobFieldsOf includeJobs jobs = (completedJobs jobs).map jobField ∧
        (jobFieldsOf includeJobs jobs).length = (completedJobs jobs).length ∧
        ∀ i : Nat, (jobFieldsOf includeJobs jobs)[i]? =
          ((completedJobs jobs)[i]?).map jobField) := by
  by_cases h1 : includeJobs = "false"
  · left
    simp [jobFieldsOf, h1]
  · by_cases h2 : includeJobs = "on-failure" ∧
        resultColor (completedJobs jobs) ≠ ResultColors.Danger
    · left
      simp only [jobFieldsOf]
      rw [jobFieldsInit_eq]
      simp [h1, h2]
    · right
      have hmap : jobFieldsOf includeJobs jobs = (completedJobs jobs).map jobField := by
        simp only [jobFieldsOf]
        rw [jobFieldsInit_eq]
        simp [h1, h2]
      refine ⟨hmap, by rw [hmap]; simp, fun i => by rw [hmap]; simp⟩

/-- Modelled from the spec (claim C6 wording): entry value
`"<icon> <jobLink>(<jobDuration>)"` — no space between the job link and the
parenthesised duration. -/
def jobFieldValueClaimed (job : Job) : String :=
  jobIcon job ++ " " ++ ("<" ++ job.html_url ++ "|" ++ job.name ++ ">") ++ "(" ++
    computeDuration job.started_at job.completed_at ++ ")"

theorem claim_c6_counterexample :
    (jobField ⟨"build", "u", 0, 0, "completed", "success"⟩).value = "✓ <u|build> (0s)" ∧
      jobFieldValueClaimed ⟨"build", "u", 0, 0, "completed", "success"⟩ = "✓ <u|build>(0s)" ∧
      (jobField ⟨"build", "u", 0, 0, "completed", "success"⟩).value ≠
        jobFieldValueClaimed ⟨"build", "u", 0, 0, "completed", "success"⟩ :=
  ⟨by decide, by decide, by decide⟩

/-- C6 (amended): the rendered job-field value is
`"<icon> <jobLink> (<jobDuration>)"` — with a single space between the job
link and the parenthesised duration, the duration being `computeDuration`
of the job's own start/end; the icon is `✓` for `success`, `⃠` for
`cancelled`, `✗` for `skipped` and `✗` for any other conclusion. -/
theorem claim_c6_jobfield_entry (job : Job) :
    (jobField job).value =
      jobIcon job ++ " " ++ ("<" ++ job.html_url ++ "|" ++ job.name ++ ">") ++ " (" ++
        computeDuration job.started_at job.completed_at ++ ")" ∧
      (job.conclusion = "success" → jobIcon job = "✓") ∧
      (job.conclusion = "cancelled" → jobIcon job = "⃠") ∧
      (job.conclusion = "skipped" → jobIcon job = "✗") ∧
      (job.conclusion ≠ "success" → job.conclusion ≠ "cancelled" →
        job.conclusion ≠ "skipped" → jobIcon job = "✗") := by
  refine ⟨?_, ?_, ?_, ?_, ?_⟩
  · dsimp only [jobField]
    simp only [String.append_assoc]
    rfl
  · intro h; simp [jobIcon, statusIcons, h]
  · intro h; simp [jobIcon, statusIcons, h]
  · intro h; simp [jobIcon, statusIcons, h]
  · intro h1 h2 h3; simp [jobIcon, statusIcons, h1, h2, h3]

theorem claim_c6_jobfield_entry_witness :
    jobIcon ⟨"a", "u", 0, 0, "completed", "cancelled"⟩ = "⃠" ∧
      jobIcon ⟨"a", "u", 0, 0, "completed", "timed_out"⟩ = "✗" :=
  ⟨(claim_c6_jobfield_entry _).2.2.1 rfl,
    (claim_c6_jobfield_entry _).2.2.2.2 (by decide) (by decide) (by decide)⟩

/-- C3: on non-negative durations (`end ≥ start`) `computeDuration` renders
exactly the spec's format — days/hours/minutes only when positive, seconds
always (sub-second precision truncated), single separating spaces, no
trailing whitespace — and matches the four quoted examples. -/
theorem claim_c3_duration_nonneg (a b : Int) (hab : a ≤ b) :
    computeDuration a b = durationSpecFormat (b - a) ∧
      computeDuration 0 0 = "0s" ∧
      computeDuration 0 65000 = "1m 5s" ∧
      computeDuration 0 59000 = "59s" ∧
      computeDuration 0 90061000 = "1d 1h 1m 1s" := by
  refine ⟨?_, by decide, by decide, by decide, by decide⟩
  rw [computeDuration_renders]
  unfold durationSpecFormat
  have hd0 : 0 ≤ b - a := by omega
  have hd : (b - a) / 86400000 = (b - a) / 1000 / 86400 := by omega
  have hh : (b - a) % 86400000 / 3600000 = (b - a) / 1000 / 3600 % 24 := by omega
  have hm : (b - a) % 86400000 % 3600000 / 60000 = (b - a) / 1000 / 60 % 60 := by omega
  have hs : (b - a) % 86400000 % 3600000 % 60000 / 1000 = (b - a) / 1000 % 60 := by omega
  rw [hd, hh, hm, hs]

theorem claim_c3_duration_nonneg_witness :
    computeDuration 0 65000 = durationSpecFormat (65000 - 0) :=
  (claim_c3_duration_nonneg 0 65000 (by norm_num)).1

/-- C4 counterexample: the claim says a duration of minus 5 seconds formats
as `"-5s"`; in the code `Math.floor` rounds toward negative infinity, so
the days component becomes `-1` (hidden) and the remaining components wrap
to the non-negative complement — the actual output is `"23h 59m 55s"`. -/
theorem claim_c4_counterexample :
    computeDuration 5000 0 = "23h 59m 55s" ∧ computeDuration 5000 0 ≠ "-5s" :=
  ⟨by decide, by decide⟩

/-- C4 (amended): for `end` before `start` the days component (the floor of
the duration over a day) is negative and therefore hidden, while the
hours/minutes/seconds components are computed from the non-negative
remainder of that floor division, so the output equals the spec format of
the duration wrapped modulo one day (`(end - start) mod 86400000` ms,
non-negative); the seconds component is never rendered negative —
concretely minus 5 seconds formats as `"23h 59m 55s"`. -/
theorem claim_c4_duration_negative (a b : Int) (hba : b < a) :
    (b - a) / 86400000 < 0 ∧
      computeDuration a b = durationSpecFormat ((b - a) % 86400000) ∧
      computeDuration 5000 0 = "23h 59m 55s" := by
  refine ⟨by omega, ?_, by decide⟩
  rw [computeDuration_renders]
  unfold durationSpecFormat
  unfold renderDHMS
  rw [if_neg (show ¬0 < (b - a) / 86400000 by omega),
    if_neg (show ¬0 < (b - a) % 86400000 / 1000 / 86400 by omega)]
  have hh : (b - a) % 86400000 / 3600000 = (b - a) % 86400000 / 1000 / 3600 % 24 := by
    omega
  have hm : (b - a) % 86400000 % 3600000 / 60000 =
      (b - a) % 86400000 / 1000 / 60 % 60 := by omega
  have hs : (b - a) % 86400000 % 3600000 % 60000 / 1000 =
      (b - a) % 86400000 / 1000 % 60 := by omega
  rw [hh, hm, hs]

theorem claim_c4_duration_negative_witness :
    (0 - 5000 : Int) / 86400000 < 0 ∧
      computeDuration 5000 0 = durationSpecFormat ((0 - 5000) % 86400000) ∧
      computeDuration 5000 0 = "23h 59m 55s" :=
  claim_c4_duration_negative 5000 0 (by norm_num)

/-- A git ref holder, as in the octokit pull-request shape (`pr.head.ref`). -/
structure GitRef where
  ref : String
deriving DecidableEq

/-- One element of `workflowRun.pull_requests`. -/
structure PullRequest where
  number : Nat
  head : GitRef
  base : GitRef
  title : String
deriving DecidableEq

/-- The repository object carried on the workflow run. -/
structure Repository where
  html_url : String
  full_name : String
deriving DecidableEq

/-- The fields of `workflowRun` that `main` reads. -/
structure WorkflowRun where
  repository : Repository
  head_branch : String
  html_url : String
  run_number : Nat
  created_at : Int
  updated_at : Int
  pull_requests : List PullRequest
deriving DecidableEq

/-- The fields of the fetched `commit` that `main` reads. -/
structure Commit where
  html_url : String
  sha : String
deriving DecidableEq

/-- Payload field `context.payload.pull_request` — present only on pull-request events. -/
structure PayloadPullRequest where
  title : String
deriving DecidableEq

/-- The parts of the Actions `context` that `main` reads. -/
structure ActionContext where
  eventName : String
  workflow : String
  payload_pull_request : Option PayloadPullRequest
deriving DecidableEq

/-- Shortcut `repoUrl` from `main` (line 139). -/
def repoUrl (run : WorkflowRun) : String :=
  "<" ++ run.repository.html_url ++ "|*" ++ run.repository.full_name ++ "*>"

/-- Shortcut `branchUrl` from `main` (line 140). -/
def branchUrl (run : WorkflowRun) : String :=
  "<" ++ run.repository.html_url ++ "/tree/" ++ run.head_branch ++ "|" ++ run.head_branch ++ ">"

/-- Shortcut `workflowRunUrl` from `main` (line 141). -/
def workflowRunUrl (run : WorkflowRun) : String :=
  "<" ++ run.html_url ++ "|#" ++ toString run.run_number ++ ">"

/-- Shortcut `commitUrl` from `main` (line 142): note `sha.substring(0, 6)`
and the space before the closing bracket. -/
def commitUrl (commit : Commit) : String :=
  "<" ++ commit.html_url ++ "|" ++ commit.sha.take 6 ++ " >"

/-- The default `title` of `main` (line 145), including its trailing
newline. -/
def defaultTitle (ctx : ActionContext) (run : WorkflowRun) (commit : Commit) : String :=
  ctx.eventName ++ " on " ++ branchUrl run ++ " " ++ commitUrl commit ++ "\n"

/-- The `title` of one mapped pull-request entry in `main` (lines 151-158):
the link text comes from `context.payload.pull_request?.title ?? ''`, not
from the mapped pull request's own `title`. -/
def prEntryTitle (ctx : ActionContext) (run : WorkflowRun) (pr : PullRequest) : String :=
  "<" ++ run.repository.html_url ++ "/pull/" ++ toString pr.number ++ "|" ++
    (match ctx.payload_pull_request with
      | some p => p.title
      | none => "") ++ " #" ++ toString pr.number ++ ">"

/-- The `text` of one mapped pull-request entry in `main` (line 156). -/
def prEntryText (pr : PullRequest) : String :=
  "from `" ++ pr.head.ref ++ "` to `" ++ pr.base.ref ++ "`"

/-- The final `title` in `main`: the default, overwritten by
`pullRequests[0].title` when `0 < pullRequests.length` (lines 160-163). -/
def titleOf (ctx : ActionContext) (run : WorkflowRun) (commit : Commit) : String :=
  let pullRequests := run.pull_requests.map fun pr => prEntryTitle ctx run pr
  match pullRequests with
  | [] => defaultTitle ctx run commit
  | t :: _ => t

/-- C5: with no associated pull requests the composed title is the default
`"<eventName> on <branchLink> <commitLink>\n"` format; with one or more
associated pull requests it is the first pull request's formatted
title/link, whatever the rest of the list is. -/
theorem claim_c5_title_substitution (ctx : ActionContext) (run : WorkflowRun)
    (commit : Commit) :
    (run.pull_requests = [] →
        titleOf ctx run commit =
          ctx.eventName ++ " on " ++ branchUrl run ++ " " ++ commitUrl commit ++ "\n") ∧
      (∀ pr rest, run.pull_requests = pr :: rest →
          titleOf ctx run commit = prEntryTitle ctx run pr) := by
  constructor
  · intro h
    simp [titleOf, h, defaultTitle]
  · intro pr rest h
    simp [titleOf, h]

theorem claim_c5_title_substitution_witness :
    titleOf ⟨"push", "CI", none⟩ ⟨⟨"R", "o/r"⟩, "main", "wu", 7, 0, 0, []⟩ ⟨"cu", "abc123"⟩ =
        "push" ++ " on " ++ branchUrl ⟨⟨"R", "o/r"⟩, "main", "wu", 7, 0, 0, []⟩ ++ " " ++
          commitUrl ⟨"cu", "abc123"⟩ ++ "\n" ∧
      titleOf ⟨"push", "CI", none⟩
          ⟨⟨"R", "o/r"⟩, "main", "wu", 7, 0, 0,
            [⟨12, ⟨"f"⟩, ⟨"main"⟩, "A"⟩, ⟨13, ⟨"g"⟩, ⟨"main"⟩, "B"⟩]⟩ ⟨"cu", "abc123"⟩ =
        prEntryTitle ⟨"push", "CI", none⟩
          ⟨⟨"R", "o/r"⟩, "main", "wu", 7, 0, 0,
            [⟨12, ⟨"f"⟩, ⟨"main"⟩, "A"⟩, ⟨13, ⟨"g"⟩, ⟨"main"⟩, "B"⟩]⟩
          ⟨12, ⟨"f"⟩, ⟨"main"⟩, "A"⟩ :=
  ⟨(claim_c5_title_substitution _ _ _).1 rfl,
    (claim_c5_title_substitution _ _ _).2 ⟨12, ⟨"f"⟩, ⟨"main"⟩, "A"⟩
      [⟨13, ⟨"g"⟩, ⟨"main"⟩, "B"⟩] rfl⟩

/-- C10: the pull-request link text in the title is built from the
triggering event payload's pull-request title (empty when the payload has
no pull request), not from the mapped pull request's own `title` field;
with no payload pull request the text before `#<number>` is empty. -/
theorem claim_c10_pr_title_source (ctx : ActionContext) (run : WorkflowRun)
    (pr : PullRequest) :
    prEntryTitle ctx run pr =
      "<" ++ run.repository.html_url ++ "/pull/" ++ toString pr.number ++ "|" ++
        (match ctx.payload_pull_request with
          | some p => p.title
          | none => "") ++ " #" ++ toString pr.number ++ ">" ∧
      (∀ pr2 : PullRequest, pr2.number = pr.number →
          prEntryTitle ctx run pr2 = prEntryTitle ctx run pr) ∧
      (ctx.payload_pull_request = none →
          prEntryTitle ctx run pr =
            "<" ++ run.repository.html_url ++ "/pull/" ++ toString pr.number ++ "|" ++
              " #" ++ toString pr.number ++ ">") := by
  refine ⟨rfl, ?_, ?_⟩
  · intro pr2 h
    simp [prEntryTitle, h]
  · intro h
    simp [prEntryTitle, h]

theorem claim_c10_pr_title_source_witness :
    prEntryTitle ⟨"push", "CI", none⟩ ⟨⟨"R", "o/r"⟩, "main", "wu", 7, 0, 0, []⟩
          ⟨42, ⟨"f"⟩, ⟨"main"⟩, "My own PR title"⟩ =
        prEntryTitle ⟨"push", "CI", none⟩ ⟨⟨"R", "o/r"⟩, "main", "wu", 7, 0, 0, []⟩
          ⟨42, ⟨"g"⟩, ⟨"dev"⟩, "Different title"⟩ ∧
      prEntryTitle ⟨"push", "CI", none⟩ ⟨⟨"R", "o/r"⟩, "main", "wu", 7, 0, 0, []⟩
          ⟨42, ⟨"g"⟩, ⟨"dev"⟩, "Different title"⟩ =
        "<" ++ "R" ++ "/pull/" ++ toString (42 : Nat) ++ "|" ++ " #" ++
          toString (42 : Nat) ++ ">" :=
  ⟨(claim_c10_pr_title_source _ _ _).2.1 ⟨42, ⟨"f"⟩, ⟨"main"⟩, "My own PR title"⟩ rfl,
    (claim_c10_pr_title_source _ _ _).2.2 rfl⟩

/-- The four raw override inputs read in `main` (lines 49-54);
`core.getInput` yields `''` for an unset input. -/
structure SlackInputs where
  channel : String
  name : String
  icon_url : String
  icon_emoji : String
deriving DecidableEq

/-- JavaScript `value || null` on an input string: `null` for the empty
(falsy) string, the string itself otherwise. -/
def orNull (s : String) : Option String :=
  if s = "" then none else some s

/-- The `slack` object of `main` (lines 49-54) as its entry list, in
declaration order. -/
def slackConfig (inputs : SlackInputs) : List (String × Option String) :=
  [("channel", orNull inputs.channel), ("username", orNull inputs.name),
    ("icon_url", orNull inputs.icon_url), ("icon_emoji", orNull inputs.icon_emoji)]

/-- The top-level keys merged into `slack_payload_body` besides
`attachments` (lines 184-189): `Object.entries(slack).filter(([, value])
=> value !== null)`. -/
def slackPayloadExtras (inputs : SlackInputs) : List (String × String) :=
  (slackConfig inputs).filterMap fun kv =>
    match kv.2 with
    | some v => some (kv.1, v)
    | none => none

/-- C7: a channel/username/icon key appears in the composed payload exactly
when the corresponding input was configured non-empty; omitted keys are
absent entirely — no entry carries a `null`-like or empty-string value. -/
theorem claim_c7_override_omission (inputs : SlackInputs) :
    ("channel" ∈ (slackPayloadExtras inputs).map Prod.fst ↔ inputs.channel ≠ "") ∧
      ("username" ∈ (slackPayloadExtras inputs).map Prod.fst ↔ inputs.name ≠ "") ∧
      ("icon_url" ∈ (slackPayloadExtras inputs).map Prod.fst ↔ inputs.icon_url ≠ "") ∧
      ("icon_emoji" ∈ (slackPayloadExtras inputs).map Prod.fst ↔ inputs.icon_emoji ≠ "") ∧
      (∀ kv ∈ slackPayloadExtras inputs, kv.2 ≠ "") ∧
      (inputs.channel ≠ "" → ("channel", inputs.channel) ∈ slackPayloadExtras inputs) := by
  by_cases h1 : inputs.channel = "" <;> by_cases h2 : inputs.name = "" <;>
    by_cases h3 : inputs.icon_url = "" <;> by_cases h4 : inputs.icon_emoji = "" <;>
    simp [slackPayloadExtras, slackConfig, orNull, h1, h2, h3, h4]

theorem claim_c7_override_omission_witness :
    ("channel", "C") ∈ slackPayloadExtras ⟨"C", "", "", ""⟩ ∧
      "username" ∉ (slackPayloadExtras ⟨"C", "", "", ""⟩).map Prod.fst :=
  ⟨(claim_c7_override_omission ⟨"C", "", "", ""⟩).2.2.2.2.2 (by decide),
    fun hm => (claim_c7_override_omission ⟨"C", "", "", ""⟩).2.1.mp hm rfl⟩

/-- A JavaScript `Error`-like value as `handleError` uses it: its
(possibly missing) `message` property and its string conversion
(for the template literal `Unhandled Error: ${err}`). -/
structure JsError where
  message : Option String
  asString : String
deriving DecidableEq

/-- The two `@actions/core` effects `handleError` performs. -/
inductive CoreEffect where
  | error (msg : String)
  | setFailed (msg : String)
deriving DecidableEq

/-- String conversion of the (possibly null) error argument. -/
def errToString : Option JsError → String
  | none => "null"
  | some e => e.asString

/-- Truthiness of `err && err.message`: the error is present and its
message is present and non-empty. -/
def errMessageTruthy : Option JsError → Bool
  | none => false
  | some e =>
    match e.message with
    | some m => m != ""
    | none => false

/-- The message used on the truthy branch (`err.message`). -/
def errMessage : Option JsError → String
  | none => ""
  | some e => e.message.getD ""

/-- Function `handleError` from `src/main.ts` (lines 227-234): log the error, then
`setFailed` with the error's message when truthy, otherwise with
`Unhandled Error: ${err}`. -/
def handleError (err : Option JsError) : List CoreEffect :=
  [CoreEffect.error (errToString err),
    if errMessageTruthy err then CoreEffect.setFailed (errMessage err)
    else CoreEffect.setFailed ("Unhandled Error: " ++ errToString err)]

/-- C9: every error reaching `handleError` produces a fatal `setFailed` —
with the error's own message when one is available (present and non-empty,
per JavaScript truthiness), with the generic
`"Unhandled Error: <err>"` marker otherwise — and no error is swallowed:
some `setFailed` (and the `core.error` log) is always emitted. -/
theorem claim_c9_error_normalization (err : Option JsError) :
    (∀ e m, err = some e → e.message = some m → m ≠ "" →
        CoreEffect.setFailed m ∈ handleError err) ∧
      (errMessageTruthy err = false →
          CoreEffect.setFailed ("Unhandled Error: " ++ errToString err) ∈ handleError err) ∧
      (∃ m, CoreEffect.setFailed m ∈ handleError err) ∧
      CoreEffect.error (errToString err) ∈ handleError err := by
  refine ⟨?_, ?_, ?_, by simp [handleError]⟩
  · intro e m he hm hne
    subst he
    simp [handleError, errMessageTruthy, errMessage, hm, hne]
  · intro hf
    simp [handleError, hf]
  · by_cases hf : errMessageTruthy err = true
    · exact ⟨errMessage err, by simp [handleError, hf]⟩
    · refine ⟨"Unhandled Error: " ++ errToString err, ?_⟩
      simp [handleError, hf]

theorem claim_c9_error_normalization_witness :
    CoreEffect.setFailed "boom" ∈ handleError (some ⟨some "boom", "Error: boom"⟩) ∧
      CoreEffect.setFailed ("Unhandled Error: " ++ errToString none) ∈ handleError none :=
  ⟨(claim_c9_error_normalization _).1 ⟨some "boom", "Error: boom"⟩ "boom" rfl rfl
      (by decide),
    (claim_c9_error_normalization none).2.1 (by decide)⟩
